import Mathlib

/-
Verification development for the MetroCast GBQR forecasting pipeline
(repository `reichlab/metrocast-sandbox-2025-2026`).

The Python sources are shallowly embedded into Lean:
  * pandas/numpy numeric values are modelled as rationals (`ℚ`) where the
    computations are ring operations, and as reals (`ℝ`) where fractional
    powers appear (`x ** 0.25`);
  * a pandas `NaN` is modelled as `Option.none`;
  * a raised Python exception is modelled as `Except.error`;
  * a DataFrame is modelled as a list of rows (order preserved), and a
    DataFrame grouped on key columns as a list of (key, rows) pairs.

Source files embedded below:
  * `src/mchub_gbqr/model.py`      (class `GBQRModel`)
  * `src/mchub_gbqr/transforms.py`
  * `src/mchub_gbqr/data_loader.py`
  * `src/gbqr_3src/main.py`        (class `GBQRModelWithNYC`)
-/

namespace MetroCast

/-! ### Quantile non-crossing (`GBQRModel._quantile_noncrossing`, model.py 321-340)

The pandas code groups `preds_df` on
`["location", "reference_date", "horizon", "target_end_date", "target", "output_type"]`
and applies `transform(lambda x: x.sort_values())` to the two columns
`output_type_id` and `value`: within each group, each of the two columns is
independently sorted ascending and the sorted sequences are re-paired
positionally.  A group is embedded as a list of
(`output_type_id`, `value`) pairs. -/

/-- Embedding of the effect of `_quantile_noncrossing` on one group of rows:
both columns independently sorted ascending, then re-paired positionally. -/
def quantileNoncrossingGroup (rows : List (ℚ × ℚ)) : List (ℚ × ℚ) :=
  (List.insertionSort (· ≤ ·) (rows.map Prod.fst)).zip
    (List.insertionSort (· ≤ ·) (rows.map Prod.snd))

/-- Embedding of `GBQRModel._quantile_noncrossing` on a whole prediction table
already grouped by the six grouping columns (the group key has type `K`). -/
def quantileNoncrossing {K : Type} (table : List (K × List (ℚ × ℚ))) :
    List (K × List (ℚ × ℚ)) :=
  table.map (fun g => (g.1, quantileNoncrossingGroup g.2))

lemma sorted_zip_pairwise {l l' : List ℚ} (h : l.Sorted (· ≤ ·))
    (h' : l'.Sorted (· ≤ ·)) :
    (l.zip l').Pairwise (fun a b => a.1 ≤ b.1 ∧ a.2 ≤ b.2) := by
  induction l generalizing l' with
  | nil => simp
  | cons a t ih =>
    cases l' with
    | nil => simp
    | cons b t' =>
      rw [List.zip_cons_cons]
      refine List.Pairwise.cons ?_ (ih h.of_cons h'.of_cons)
      intro p hp
      obtain ⟨h1, h2⟩ := List.of_mem_zip hp
      exact ⟨List.rel_of_sorted_cons h _ h1, List.rel_of_sorted_cons h' _ h2⟩

lemma quantileNoncrossingGroup_maps (rows : List (ℚ × ℚ)) :
    (quantileNoncrossingGroup rows).map Prod.fst =
      List.insertionSort (· ≤ ·) (rows.map Prod.fst) ∧
    (quantileNoncrossingGroup rows).map Prod.snd =
      List.insertionSort (· ≤ ·) (rows.map Prod.snd) := by
  have hlen : (List.insertionSort (· ≤ ·) (rows.map Prod.fst)).length =
      (List.insertionSort (· ≤ ·) (rows.map Prod.snd)).length := by
    simp [List.length_insertionSort]
  constructor
  · exact List.map_fst_zip _ _ (le_of_eq hlen)
  · exact List.map_snd_zip _ _ (le_of_eq hlen.symm)

/-- C1: `_quantile_noncrossing`, applied with grouping columns
(location, reference_date, horizon, target_end_date, target, output_type),
returns within each group the same multiset of values (and of quantile
labels) as its input, re-paired so that, listing the group's rows with
quantile levels ascending, the values are non-decreasing: for any two rows
of an output group, in order, both the quantile level and the value are
`≤`-related.  Hence in the emitted table, for a fixed group, the value is
non-decreasing in the quantile level. -/
theorem quantile_noncrossing_monotone_perm {K : Type}
    (table : List (K × List (ℚ × ℚ))) (kg : K × List (ℚ × ℚ))
    (hmem : kg ∈ table) :
    ((quantileNoncrossingGroup kg.2).map Prod.snd).Perm (kg.2.map Prod.snd) ∧
    ((quantileNoncrossingGroup kg.2).map Prod.fst).Perm (kg.2.map Prod.fst) ∧
    (quantileNoncrossingGroup kg.2).Pairwise
      (fun a b => a.1 ≤ b.1 ∧ a.2 ≤ b.2) ∧
    (kg.1, quantileNoncrossingGroup kg.2) ∈ quantileNoncrossing table := by
  obtain ⟨hfst, hsnd⟩ := quantileNoncrossingGroup_maps kg.2
  refine ⟨?_, ?_, ?_, ?_⟩
  · rw [hsnd]; exact List.perm_insertionSort _ _
  · rw [hfst]; exact List.perm_insertionSort _ _
  · exact sorted_zip_pairwise (List.sorted_insertionSort _ _)
      (List.sorted_insertionSort _ _)
  · exact List.mem_map_of_mem _ hmem

/-- Witness for C1: the theorem applied to a concrete one-group table whose
quantiles cross (value 7 at level 1/4 sits above value 5 at level 1/2). -/
theorem quantile_noncrossing_monotone_perm_witness :
    ((quantileNoncrossingGroup [((1:ℚ)/2, (5:ℚ)), (1/4, 7)]).map Prod.snd).Perm
        ([((1:ℚ)/2, (5:ℚ)), (1/4, 7)].map Prod.snd) ∧
    ((quantileNoncrossingGroup [((1:ℚ)/2, (5:ℚ)), (1/4, 7)]).map Prod.fst).Perm
        ([((1:ℚ)/2, (5:ℚ)), (1/4, 7)].map Prod.fst) ∧
    (quantileNoncrossingGroup [((1:ℚ)/2, (5:ℚ)), (1/4, 7)]).Pairwise
      (fun a b => a.1 ≤ b.1 ∧ a.2 ≤ b.2) ∧
    ((0:ℚ), quantileNoncrossingGroup [((1:ℚ)/2, (5:ℚ)), (1/4, 7)]) ∈
      quantileNoncrossing [((0:ℚ), [((1:ℚ)/2, (5:ℚ)), (1/4, 7)])] :=
  quantile_noncrossing_monotone_perm
    [((0:ℚ), [((1:ℚ)/2, (5:ℚ)), (1/4, 7)])]
    ((0:ℚ), [((1:ℚ)/2, (5:ℚ)), (1/4, 7)]) (List.mem_singleton.mpr rfl)

/-! ### Inverse transforms over exact rational arithmetic
(`transforms.py` 34-52 and 164-201, `model.py` 183-198)

Two inverse implementations exist in the repository: the inline inverse in
`GBQRModel._train_and_predict` and `transforms.inverse_scale_center_transform`.
Both are ring computations, embedded over `ℚ`; a raised `ValueError` is an
`Except.error`. -/

/-- Embedding of the inline inverse in `GBQRModel._train_and_predict`
(model.py 183-198), for one melted prediction row: `t` is the predicted
centered value `inc_trans_cs_target_hat = inc_trans_cs + delta_hat`, `c` the
center factor, `s` the scale factor and `invPower` the integer exponent
(4 for `"4rt"`, 1 for `None`).  The code computes
`value = maximum((t + c) * (s + 0.01), 0) ** inv_power - 0.01` and then
clamps `value` at 0. -/
def modelInlineInverse (t c s : ℚ) (invPower : ℕ) : ℚ :=
  max ((max ((t + c) * (s + 1/100)) 0) ^ invPower - 1/100) 0

/-- Embedding of `inverse_power_transform` (transforms.py 34-52) on one value:
`None` → `inc_trans - 0.01`; `"4rt"` → `inc_trans ** 4 - 0.01`; any other
name raises `ValueError`. -/
def inversePowerTransform (pt : Option String) (y : ℚ) : Except String ℚ :=
  match pt with
  | none => .ok (y - 1/100)
  | some s =>
      if s = "4rt" then .ok (y ^ (4:ℕ) - 1/100)
      else .error ("Unknown power transform: " ++ s)

/-- Embedding of `inverse_scale_center_transform` (transforms.py 164-201) on a
single prediction row whose merged factors are `c` and `s`: inverse center
(`t + c`), inverse scale (`* (s + 0.01)`), inverse power transform, then
clip at 0.  Note there is no inner clamp before the power. -/
def inverseScaleCenterTransform (pt : Option String) (t c s : ℚ) :
    Except String ℚ :=
  (inversePowerTransform pt ((t + c) * (s + 1/100))).map (fun x => max x 0)

/-- The inverse formula exactly as the specification states it (spec §4.2):
`x = (max(t + c, 0) * (s + 0.01)) ^ (1/p) - 0.01`, then clamp at 0, with
`1/p` the integer exponent `invPower`. -/
def specInverseFormula (t c s : ℚ) (invPower : ℕ) : ℚ :=
  max ((max (t + c) 0 * (s + 1/100)) ^ invPower - 1/100) 0

lemma max_mul_of_nonneg (a v : ℚ) (hv : 0 ≤ v) :
    max a 0 * v = max (a * v) 0 := by
  rcases le_total a 0 with h | h
  · rw [max_eq_right h, max_eq_right (mul_nonpos_of_nonpos_of_nonneg h hv),
      zero_mul]
  · rw [max_eq_left h, max_eq_left (mul_nonneg h hv)]

/-- C4 counterexample: at `t = -2`, `c = 0`, `s = 99/100` (so `s + 0.01 = 1`)
with power transform `"4rt"`, `inverse_scale_center_transform` returns
`(-2)^4 - 0.01 = 15.99` while the inline inverse in `_train_and_predict`
returns `0` (which is also the value of the spec's formula): the two
implementations do not compute the same function for every input. -/
theorem inverse_implementations_differ_counterexample :
    inverseScaleCenterTransform (some "4rt") (-2) 0 (99/100) =
      .ok (1599/100) ∧
    modelInlineInverse (-2) 0 (99/100) 4 = 0 ∧
    specInverseFormula (-2) 0 (99/100) 4 = 0 ∧
    inverseScaleCenterTransform (some "4rt") (-2) 0 (99/100) ≠
      .ok (modelInlineInverse (-2) 0 (99/100) 4) := by
  refine ⟨?_, ?_, ?_, ?_⟩
  · norm_num [inverseScaleCenterTransform, inversePowerTransform, Except.map]
  · norm_num [modelInlineInverse]
  · norm_num [specInverseFormula]
  · norm_num [inverseScaleCenterTransform, inversePowerTransform,
      modelInlineInverse, Except.map]

/-- C4 (amended): whenever `s + 0.01 ≥ 0`, the inline inverse in
`_train_and_predict` computes exactly the spec's formula
`max((max(t + c, 0) * (s + 0.01)) ^ (1/p) - 0.01, 0)`, for both exponents;
with power transform `None` the two implementations agree everywhere; with
`"4rt"` they agree whenever `t + c ≥ 0` and `s + 0.01 ≥ 0` — the clause
"for every input" fails only because `inverse_scale_center_transform` omits
the clamp before the fourth power. -/
theorem inverse_implementations_agree_on_nonneg (t c s : ℚ) :
    (0 ≤ s + 1/100 →
      modelInlineInverse t c s 4 = specInverseFormula t c s 4 ∧
      modelInlineInverse t c s 1 = specInverseFormula t c s 1) ∧
    inverseScaleCenterTransform none t c s =
      .ok (modelInlineInverse t c s 1) ∧
    (0 ≤ t + c → 0 ≤ s + 1/100 →
      inverseScaleCenterTransform (some "4rt") t c s =
        .ok (modelInlineInverse t c s 4)) := by
  refine ⟨fun hs => ?_, ?_, fun ht hs => ?_⟩
  · rw [modelInlineInverse, modelInlineInverse, specInverseFormula,
      specInverseFormula, max_mul_of_nonneg _ _ hs]
    exact ⟨rfl, rfl⟩
  · rw [inverseScaleCenterTransform, inversePowerTransform,
      modelInlineInverse]
    rcases le_total 0 ((t + c) * (s + 1/100)) with h | h
    · rw [max_eq_left h]; simp [Except.map, pow_one]
    · have hR : ((t + c) * (s + 1/100)) ⊔ 0 = 0 := max_eq_right h
      simp only [Except.map, pow_one, hR]
      rw [max_eq_right (show (t + c) * (s + 1/100) - 1/100 ≤ 0 by linarith),
        max_eq_right (show (0:ℚ) - 1/100 ≤ 0 by norm_num)]
  · have hu : 0 ≤ (t + c) * (s + 1/100) := mul_nonneg ht hs
    rw [inverseScaleCenterTransform, inversePowerTransform,
      modelInlineInverse, max_eq_left hu]
    simp [Except.map]

/-- Witness for C4's amended theorem at `t = 1`, `c = 0`, `s = 1`. -/
theorem inverse_implementations_agree_on_nonneg_witness :
    modelInlineInverse 1 0 1 4 = specInverseFormula 1 0 1 4 ∧
    inverseScaleCenterTransform (some "4rt") 1 0 1 =
      .ok (modelInlineInverse 1 0 1 4) :=
  ⟨((inverse_implementations_agree_on_nonneg 1 0 1).1 (by norm_num)).1,
    (inverse_implementations_agree_on_nonneg 1 0 1).2.2 (by norm_num)
      (by norm_num)⟩

/-! ### Forward transforms over exact real arithmetic (`transforms.py` 13-52,
123-201)

The forward `"4rt"` transform takes a real fourth root (`** 0.25`), so this
part of the embedding lives in `ℝ` with `Real.rpow`. -/

/-- Embedding of `apply_power_transform` (transforms.py 13-31) over exact real
arithmetic: `None` → `inc + 0.01`; `"4rt"` → `(inc + 0.01) ** 0.25`; any
other name raises `ValueError`. -/
noncomputable def applyPowerTransformR (pt : Option String) (x : ℝ) :
    Except String ℝ :=
  match pt with
  | none => .ok (x + 1/100)
  | some s =>
      if s = "4rt" then .ok ((x + 1/100) ^ ((1:ℝ)/4))
      else .error ("Unknown power transform: " ++ s)

/-- Embedding of `inverse_power_transform` (transforms.py 34-52) over exact
real arithmetic. -/
noncomputable def inversePowerTransformR (pt : Option String) (y : ℝ) :
    Except String ℝ :=
  match pt with
  | none => .ok (y - 1/100)
  | some s =>
      if s = "4rt" then .ok (y ^ (4:ℕ) - 1/100)
      else .error ("Unknown power transform: " ++ s)

/-- The forward pipeline of `apply_scale_center_transform`
(transforms.py 123-161) on one value, with the group's factors frozen at
`(s, c)`: power transform, scale by `1 / (s + 0.01)`, subtract `c`. -/
noncomputable def forwardScaleCenterR (pt : Option String) (s c x : ℝ) :
    Except String ℝ :=
  (applyPowerTransformR pt x).map (fun t => t / (s + 1/100) - c)

/-- Embedding of `inverse_scale_center_transform` (transforms.py 164-201)
over exact real arithmetic, on one row with merged factors `(s, c)`. -/
noncomputable def inverseScaleCenterTransformR (pt : Option String)
    (t c s : ℝ) : Except String ℝ :=
  (inversePowerTransformR pt ((t + c) * (s + 1/100))).map (fun x => max x 0)

/-- C2: for every incidence `x ≥ 0` and each supported power-transform mode
(`"4rt"` with `p = 1/4`, `None` with `p = 1`),
`inverse_power_transform (apply_power_transform x)` returns `x` in exact
real arithmetic; and the full forward scale/center pipeline followed by
`inverse_scale_center_transform` using the same frozen
`(scale_factor, center_factor)` pair returns `x`, for every center factor
`c` and every scale factor `s` with `s + 0.01 ≠ 0`. -/
theorem transform_roundtrip (pt : Option String) (x s c : ℝ) (hx : 0 ≤ x)
    (hpt : pt = none ∨ pt = some "4rt") (hs : s + 1/100 ≠ 0) :
    (applyPowerTransformR pt x).bind (inversePowerTransformR pt) = .ok x ∧
    (forwardScaleCenterR pt s c x).bind
      (fun t => inverseScaleCenterTransformR pt t c s) = .ok x := by
  have hbase : (0:ℝ) ≤ x + 1/100 := by linarith
  rcases hpt with rfl | rfl
  · constructor
    · simp only [applyPowerTransformR, inversePowerTransformR, Except.bind,
        add_sub_cancel_right]
    · simp only [forwardScaleCenterR, applyPowerTransformR, Except.map,
        Except.bind, inverseScaleCenterTransformR, inversePowerTransformR]
      rw [sub_add_cancel, div_mul_cancel₀ _ hs, add_sub_cancel_right,
        max_eq_left hx]
  · have h4 : ((x + 1/100) ^ ((1:ℝ)/4)) ^ (4:ℕ) = x + 1/100 := by
      rw [← Real.rpow_natCast ((x + 1/100) ^ ((1:ℝ)/4)) 4,
        ← Real.rpow_mul hbase]
      norm_num
    constructor
    · simp only [applyPowerTransformR, inversePowerTransformR, Except.bind,
        if_true, h4, add_sub_cancel_right]
    · simp only [forwardScaleCenterR, applyPowerTransformR, Except.map,
        Except.bind, inverseScaleCenterTransformR, inversePowerTransformR,
        if_true]
      rw [sub_add_cancel, div_mul_cancel₀ _ hs, h4,
        add_sub_cancel_right, max_eq_left hx]

/-- Witness for C2 at `x = 3`, mode `"4rt"`, frozen factors `s = 1`,
`c = 5`. -/
theorem transform_roundtrip_witness :
    (applyPowerTransformR (some "4rt") 3).bind
      (inversePowerTransformR (some "4rt")) = .ok 3 ∧
    (forwardScaleCenterR (some "4rt") 1 5 3).bind
      (fun t => inverseScaleCenterTransformR (some "4rt") t 5 1) = .ok 3 :=
  transform_roundtrip (some "4rt") 3 1 5 (by norm_num) (Or.inr rfl)
    (by norm_num)

/-! ### Scale/center factor computation (`transforms.py` 55-161)

`compute_scale_factors` masks out-of-season values to NaN and takes
`quantile(0.95)` per group; `compute_center_factors` takes the in-season
mean of the scaled values.  A pandas NaN is `none`; both pandas reductions
skip NaN and return NaN on an empty remainder. -/

/-- One input row of the harmonized panel as seen by the transform step for
a single (source, location) group: incidence and season week. -/
structure PanelRow where
  inc : ℚ
  seasonWeek : ℕ
deriving DecidableEq

/-- In-season mask of `compute_scale_factors` / `compute_center_factors`:
`season_week` between 10 and 45. -/
def inSeason (r : PanelRow) : Bool :=
  10 ≤ r.seasonWeek && r.seasonWeek ≤ 45

/-- pandas `Series.quantile(p)`: linear interpolation on the sorted non-NaN
values; NaN (`none`) when no values remain. -/
def seriesQuantile (p : ℚ) (l : List ℚ) : Option ℚ :=
  if l = [] then none
  else
    let s := List.insertionSort (· ≤ ·) l
    let n := s.length
    let h : ℚ := p * (n - 1)
    let i : ℕ := h.floor.toNat
    let lo := s.getD i 0
    let hi := s.getD (min (i + 1) (n - 1)) 0
    some (lo + (h - i) * (hi - lo))

/-- pandas `Series.mean()` (skipna): mean of the non-NaN values, NaN
(`none`) when there are none. -/
def seriesMean (l : List ℚ) : Option ℚ :=
  if l = [] then none else some (l.sum / l.length)

/-- Output row of `apply_scale_center_transform`: the added columns
`inc_trans`, `inc_trans_scale_factor`, `inc_trans_cs`,
`inc_trans_center_factor`, with NaN as `none`. -/
structure TransformedRow where
  inc : ℚ
  seasonWeek : ℕ
  incTrans : ℚ
  incTransScaleFactor : Option ℚ
  incTransCs : Option ℚ
  incTransCenterFactor : Option ℚ
deriving DecidableEq

/-- Embedding of `compute_scale_factors` (transforms.py 55-86) on one
(source, location) group, with the power transform given as the pure map
`ptF` on incidences: the 0.95 quantile of the in-season `inc_trans` values,
NaN (`none`) when the group has zero in-season rows. -/
def computeScaleFactor (ptF : ℚ → ℚ) (rows : List PanelRow) : Option ℚ :=
  seriesQuantile (19/20)
    ((rows.filter (fun r => inSeason r)).map (fun r => ptF r.inc))

/-- Embedding of `compute_center_factors` (transforms.py 89-120) on one
group: the mean of the in-season `inc_trans_cs` values (`cs` per row, `none`
when NaN), skipping NaN. -/
def computeCenterFactor (cs : PanelRow → Option ℚ) (rows : List PanelRow) :
    Option ℚ :=
  seriesMean ((rows.filter (fun r => inSeason r)).filterMap cs)

/-- Embedding of `apply_scale_center_transform` (transforms.py 123-161) on
one (source, location) group (`ptF` is the power-transform map, e.g.
`fun x => x + 1/100` for mode `None`).  A NaN (`none`) scale factor
propagates into `inc_trans_cs`; the function returns normally either way. -/
def applyScaleCenterTransform (ptF : ℚ → ℚ) (rows : List PanelRow) :
    List TransformedRow :=
  let sf := computeScaleFactor ptF rows
  let cs1 : PanelRow → Option ℚ :=
    fun r => sf.map (fun s => ptF r.inc / (s + 1/100))
  let cf := computeCenterFactor cs1 rows
  rows.map (fun r =>
    { inc := r.inc, seasonWeek := r.seasonWeek, incTrans := ptF r.inc,
      incTransScaleFactor := sf,
      incTransCs := (cs1 r).bind (fun v => cf.map (fun c => v - c)),
      incTransCenterFactor := cf })

/-- C3 (evaluation of the code at the failing input): a (source, location)
group whose only observation has `season_week = 50` — zero in-season rows —
gets NaN (`none`) scale and center factors, and
`apply_scale_center_transform` returns normally with a NaN-valued
`inc_trans_cs` carried forward; no error is raised for the group anywhere in
`GBQRModel.run`, contrary to the claim. -/
theorem nan_factor_carried_forward_without_error :
    applyScaleCenterTransform (fun x => x + 1/100) [⟨1, 50⟩] =
      [{ inc := 1, seasonWeek := 50, incTrans := 101/100,
         incTransScaleFactor := none, incTransCs := none,
         incTransCenterFactor := none }] := by
  simp [applyScaleCenterTransform, computeScaleFactor, computeCenterFactor,
    seriesQuantile, seriesMean, inSeason]
  norm_num

/-! ### Bagged ensemble aggregation
(`GBQRModel._get_test_quantile_predictions`, model.py 202-272) -/

/-- Embedding of `np.median` on a one-dimensional array: sort ascending; for
odd length take the middle element, for even length the mean of the two
middle elements.  (numpy's median of an empty array is NaN; the pipeline
always aggregates `num_bags ≥ 1` values, and this embedding returns the
junk value 0 on `[]`.) -/
def npMedian (l : List ℚ) : ℚ :=
  let s := List.insertionSort (· ≤ ·) l
  let n := s.length
  if n % 2 = 1 then s.getD (n / 2) 0
  else (s.getD (n / 2 - 1) 0 + s.getD (n / 2) 0) / 2

/-- Embedding of the aggregation step of `_get_test_quantile_predictions`
(model.py 233-272): `test_preds_by_bag` is indexed by
(test row, bag, quantile level) and `np.median(test_preds_by_bag, axis=1)`
takes the median across bags for each test row and quantile level
independently. -/
def aggregateAcrossBags {nTest nBags nQ : ℕ}
    (preds : Fin nTest → Fin nBags → Fin nQ → ℚ) :
    Fin nTest → Fin nQ → ℚ :=
  fun i q => npMedian ((List.finRange nBags).map (fun b => preds i b q))

lemma getD_eq_get_of_lt (l : List ℚ) (i : ℕ) (h : i < l.length) :
    l.getD i 0 = l.get ⟨i, h⟩ := by
  simp [List.getD_eq_getElem?_getD, List.getElem?_eq_getElem h]

lemma npMedian_singleton (x : ℚ) : npMedian [x] = x := by
  simp [npMedian, List.insertionSort, List.orderedInsert]

lemma npMedian_mem_of_odd (l : List ℚ) (hodd : l.length % 2 = 1) :
    npMedian l ∈ l := by
  have hlen : (List.insertionSort (· ≤ ·) l).length = l.length :=
    List.length_insertionSort _ _
  have hlt : l.length / 2 < (List.insertionSort (· ≤ ·) l).length := by
    rw [hlen]; omega
  simp only [npMedian, hlen, hodd, if_pos rfl]
  rw [getD_eq_get_of_lt _ _ hlt]
  exact (List.perm_insertionSort (· ≤ ·) l).subset (List.get_mem _ _ _)

/-- C5: the ensemble aggregates the bag predictions by taking, per test row
and per quantile level independently, the median across bags.  With
`num_bags = 1` the aggregated output equals the single bag's regressor
predictions exactly; and for any odd number of bags the aggregate at each
(row, level) is one of the bag predictions (true of a median, false of a
mean in general). -/
theorem median_aggregation_single_bag_exact :
    (∀ (nTest nQ : ℕ) (preds : Fin nTest → Fin 1 → Fin nQ → ℚ)
        (i : Fin nTest) (q : Fin nQ),
      aggregateAcrossBags preds i q = preds i 0 q) ∧
    (∀ (nTest nBags nQ : ℕ) (preds : Fin nTest → Fin nBags → Fin nQ → ℚ)
        (i : Fin nTest) (q : Fin nQ), nBags % 2 = 1 →
      aggregateAcrossBags preds i q ∈
        (List.finRange nBags).map (fun b => preds i b q)) := by
  constructor
  · intro nTest nQ preds i q
    have h1 : (List.finRange 1).map (fun b => preds i b q) = [preds i 0 q] :=
      rfl
    rw [aggregateAcrossBags, h1]
    exact npMedian_singleton _
  · intro nTest nBags nQ preds i q hodd
    have hlen : ((List.finRange nBags).map (fun b => preds i b q)).length
        = nBags := by simp
    exact npMedian_mem_of_odd _ (by rw [hlen]; exact hodd)

/-- Witness for C5 at three concrete bags `(1, 1, 10)` for a single test row
and quantile level: the aggregate is the median 1 (the mean would be 4),
and with a single bag holding the value 5 the aggregate is exactly 5. -/
theorem median_aggregation_single_bag_exact_witness :
    @aggregateAcrossBags 1 1 1 (fun _ _ _ => (5:ℚ)) 0 0 = 5 ∧
    @aggregateAcrossBags 1 3 1
        (fun _ b _ => if b.val = 2 then (10:ℚ) else 1) 0 0 ∈
      (List.finRange 3).map
        (fun b => if b.val = 2 then (10:ℚ) else 1) :=
  ⟨median_aggregation_single_bag_exact.1 1 1 (fun _ _ _ => (5:ℚ)) 0 0,
    median_aggregation_single_bag_exact.2 1 3 1
      (fun _ b _ => if b.val = 2 then (10:ℚ) else 1) 0 0 (by decide)⟩

/-! ### Season and season-week mapping (`data_loader.py` 109-136)

`_date_to_season` and `_date_to_season_week` first convert the date to an
MMWR epidemiological week via the external `pymmwr.date_to_epiweek` and
then branch on the epiweek alone.  The epiweek conversion is external
library code, kept abstract as a parameter `ew` on an abstract date type
`D`; the repository's own branching logic is embedded concretely. -/

/-- The season string computed by `_date_to_season` from the epiweek
`(year, week)`: `f"{year}/{str(year + 1)[2:]}"` for `week >= 40`, else
`f"{year - 1}/{str(year)[2:]}"`. -/
def seasonOfEpiweek (year week : ℕ) : String :=
  if 40 ≤ week then toString year ++ "/" ++ (toString (year + 1)).drop 2
  else toString (year - 1) ++ "/" ++ (toString year).drop 2

/-- The season week computed by `_date_to_season_week` from the epiweek:
`week - 39` for `week >= 40`, else `week + 13`. -/
def seasonWeekOfEpiweek (week : ℕ) : ℕ :=
  if 40 ≤ week then week - 39 else week + 13

/-- Embedding of `_date_to_season`: the external epiweek conversion `ew`
(pymmwr) followed by the branching above. -/
def dateToSeason {D : Type} (ew : D → ℕ × ℕ) (d : D) : String :=
  seasonOfEpiweek (ew d).1 (ew d).2

/-- Embedding of `_date_to_season_week`. -/
def dateToSeasonWeek {D : Type} (ew : D → ℕ × ℕ) (d : D) : ℕ :=
  seasonWeekOfEpiweek (ew d).2

/-- C7: the date → (season, season-week) mapping is a pure deterministic
function of the date, factoring through its epiweek: every week-ending date
whose epiweek is week 40 of 2023 maps to season "2023/24" and season-week
1, and every date whose epiweek is week 39 of 2024 maps to season "2023/24"
and season-week 52. -/
theorem season_mapping_week40_week39 {D : Type} (ew : D → ℕ × ℕ)
    (d d' : D) (h : ew d = (2023, 40)) (h' : ew d' = (2024, 39)) :
    dateToSeason ew d = "2023/24" ∧ dateToSeasonWeek ew d = 1 ∧
    dateToSeason ew d' = "2023/24" ∧ dateToSeasonWeek ew d' = 52 := by
  rw [dateToSeason, dateToSeasonWeek, dateToSeason, dateToSeasonWeek, h, h']
  exact ⟨by decide, by decide, by decide, by decide⟩

/-- Witness for C7 with concrete dates carrying the two epiweeks. -/
theorem season_mapping_week40_week39_witness :
    dateToSeason (fun b => if b then (2023, 40) else (2024, 39)) true
        = "2023/24" ∧
    dateToSeasonWeek (fun b => if b then (2023, 40) else (2024, 39)) true
        = 1 ∧
    dateToSeason (fun b => if b then (2023, 40) else (2024, 39)) false
        = "2023/24" ∧
    dateToSeasonWeek (fun b => if b then (2023, 40) else (2024, 39)) false
        = 52 :=
  season_mapping_week40_week39
    (fun b => if b then (2023, 40) else (2024, 39)) true false rfl rfl

/-- C10: in a 53-week epidemiological year Y, a date in epiweek 53 of
year Y gets season-week `53 - 39 = 14`, a date in epiweek 1 of year Y+1
gets season-week `1 + 13 = 14`, and both get season "Y/Y+1"; hence two
distinct week-ending dates within one season share the same
(season, season-week) pair. -/
theorem epiweek53_season_week_collision {D : Type} (ew : D → ℕ × ℕ)
    (year : ℕ) (d1 d2 : D) (hne : d1 ≠ d2)
    (h1 : ew d1 = (year, 53)) (h2 : ew d2 = (year + 1, 1)) :
    dateToSeasonWeek ew d1 = 14 ∧ dateToSeasonWeek ew d2 = 14 ∧
    dateToSeason ew d1 = dateToSeason ew d2 ∧ d1 ≠ d2 := by
  rw [dateToSeasonWeek, dateToSeasonWeek, dateToSeason, dateToSeason, h1, h2]
  refine ⟨rfl, rfl, ?_, hne⟩
  show seasonOfEpiweek year 53 = seasonOfEpiweek (year + 1) 1
  rw [seasonOfEpiweek, seasonOfEpiweek, if_pos (by omega),
    if_neg (by omega), Nat.add_sub_cancel]

/-- Witness for C10 with the 53-week year 2014: dates 0 and 1 carrying
epiweeks (2014, 53) and (2015, 1). -/
theorem epiweek53_season_week_collision_witness :
    dateToSeasonWeek (fun n => if n = 0 then (2014, 53) else (2015, 1))
        (0:ℕ) = 14 ∧
    dateToSeasonWeek (fun n => if n = 0 then (2014, 53) else (2015, 1))
        (1:ℕ) = 14 ∧
    dateToSeason (fun n => if n = 0 then (2014, 53) else (2015, 1)) (0:ℕ) =
      dateToSeason (fun n => if n = 0 then (2014, 53) else (2015, 1)) (1:ℕ) ∧
    (0:ℕ) ≠ 1 :=
  epiweek53_season_week_collision
    (fun n => if n = 0 then (2014, 53) else (2015, 1)) 2014 0 1
    (by decide) rfl rfl

/-! ### Determinism of seeding and forecasts
(`GBQRModel._get_test_quantile_predictions`, model.py 222-248)

`rng_seed = int(calendar.timegm(run_config.ref_date.timetuple()))`: for a
date, `timetuple()` is midnight UTC, so `timegm` returns 86400 times the
day count since the Unix epoch; a date is embedded as that day count.
`np.random.default_rng(seed).integers(1e8, size=(num_bags, len(q_levels)))`
is external library code, kept abstract as a parameter `rng` that the run
consumes with exactly the arguments the code passes; LightGBM fitting plus
the median aggregation downstream of the seed draw are abstracted as
`fit`. -/

/-- The run-level seed `calendar.timegm(ref_date.timetuple())`, with the
reference date given as days since the Unix epoch. -/
def runSeed (refDate : ℤ) : ℤ := 86400 * refDate

/-- The per-fit seed matrix `lgb_seeds`, drawn by the external generator
`rng` from the run-level seed with shape `(num_bags, len(q_levels))`. -/
def lgbSeeds (rng : ℤ → ℕ → ℕ → ℕ → ℕ → ℤ) (refDate : ℤ)
    (numBags numQ : ℕ) : ℕ → ℕ → ℤ :=
  rng (runSeed refDate) numBags numQ

/-- The median-aggregated forecasts of `_get_test_quantile_predictions`:
everything downstream of the seed draw (`fit`) consumes only the seed
matrix, the configuration and the input data. -/
def runForecasts {Data Cfg Out : Type} (rng : ℤ → ℕ → ℕ → ℕ → ℕ → ℤ)
    (fit : (ℕ → ℕ → ℤ) → Cfg → Data → Out) (refDate : ℤ)
    (numBags numQ : ℕ) (cfg : Cfg) (data : Data) : Out :=
  fit (lgbSeeds rng refDate numBags numQ) cfg data

/-- C6: two runs with identical reference date, identical input snapshots
and identical configuration have bit-identical run-level seeds and
`num_bags × num_quantile_levels` per-fit seed matrices, and identical
median-aggregated forecasts; the run-level seed is a function of the
reference date alone, and is injective in it (reruns for different dates
are seeded differently). -/
theorem run_determinism {Data Cfg Out : Type}
    (rng : ℤ → ℕ → ℕ → ℕ → ℕ → ℤ)
    (fit : (ℕ → ℕ → ℤ) → Cfg → Data → Out)
    (d1 d2 : ℤ) (nb nq : ℕ) (cfg1 cfg2 : Cfg) (data1 data2 : Data)
    (hd : d1 = d2) (hcfg : cfg1 = cfg2) (hdata : data1 = data2) :
    runSeed d1 = runSeed d2 ∧
    lgbSeeds rng d1 nb nq = lgbSeeds rng d2 nb nq ∧
    runForecasts rng fit d1 nb nq cfg1 data1 =
      runForecasts rng fit d2 nb nq cfg2 data2 ∧
    (∀ e1 e2 : ℤ, runSeed e1 = runSeed e2 → e1 = e2) := by
  subst hd; subst hcfg; subst hdata
  exact ⟨rfl, rfl, rfl, fun e1 e2 h =>
    mul_left_cancel₀ (show (86400:ℤ) ≠ 0 by norm_num) h⟩

/-- Witness for C6 at a concrete generator, fitting function and pair of
identical runs (reference date 20000 days since epoch). -/
theorem run_determinism_witness :
    runSeed 20000 = runSeed 20000 ∧
    lgbSeeds (fun _ _ _ _ _ => 0) 20000 100 9 =
      lgbSeeds (fun _ _ _ _ _ => 0) 20000 100 9 ∧
    runForecasts (fun _ _ _ _ _ => (0:ℤ)) (fun _ _ _ => (0:ℤ)) 20000 100 9
        () () =
      runForecasts (fun _ _ _ _ _ => (0:ℤ)) (fun _ _ _ => (0:ℤ)) 20000 100 9
        () () ∧
    (∀ e1 e2 : ℤ, runSeed e1 = runSeed e2 → e1 = e2) :=
  run_determinism (fun _ _ _ _ _ => 0) (fun _ _ _ => (0:ℤ)) 20000 20000
    100 9 () () () () rfl rfl rfl

/-! ### Dependence only on data up to the reference date
(`GBQRModel.run`, model.py 47-56) -/

/-- One row of the combined panel as seen by the as-of filter: the
week-ending date (days since epoch) and the rest of the row. -/
structure ObsRow (α : Type) where
  wkEndDate : ℤ
  payload : α

/-- The filter
`df = df[df["wk_end_date"] <= pd.Timestamp(run_config.ref_date)]` from
`GBQRModel.run` (model.py 56), preserving row order. -/
def filterAsOf {α : Type} (refDate : ℤ) (df : List (ObsRow α)) :
    List (ObsRow α) :=
  df.filter (fun r => r.wkEndDate ≤ refDate)

/-- `GBQRModel.run` after loading: every downstream step (transform,
feature construction, training, formatting) consumes only the filtered
frame; the downstream computation is abstracted as `downstream`. -/
def runOnData {α Out : Type} (downstream : List (ObsRow α) → Out)
    (refDate : ℤ) (df : List (ObsRow α)) : Out :=
  downstream (filterAsOf refDate df)

/-- C9: the emitted forecasts depend only on input rows with
`wk_end_date ≤ ref_date`: every row surviving the filter is dated on or
before the reference date; two inputs agreeing on their rows up to the
reference date produce identical outputs; and appending arbitrary
later-dated rows leaves the output unchanged. -/
theorem forecasts_depend_only_on_past {α Out : Type}
    (downstream : List (ObsRow α) → Out) (refDate : ℤ)
    (df1 df2 extra : List (ObsRow α))
    (hagree : filterAsOf refDate df1 = filterAsOf refDate df2)
    (hextra : ∀ r ∈ extra, refDate < r.wkEndDate) :
    (∀ r ∈ filterAsOf refDate df1, r.wkEndDate ≤ refDate) ∧
    runOnData downstream refDate df1 = runOnData downstream refDate df2 ∧
    runOnData downstream refDate (df1 ++ extra) =
      runOnData downstream refDate df1 := by
  refine ⟨?_, ?_, ?_⟩
  · intro r hr
    simpa using List.of_mem_filter hr
  · rw [runOnData, runOnData, hagree]
  · rw [runOnData, runOnData, filterAsOf, filterAsOf, List.filter_append]
    have hnil : extra.filter (fun r => decide (r.wkEndDate ≤ refDate)) = [] := by
      rw [List.filter_eq_nil_iff]
      intro r hr
      simpa using not_le.mpr (hextra r hr)
    rw [hnil, List.append_nil]

/-- Witness for C9: a two-row dataset versus the same dataset extended by a
row dated after the reference date. -/
theorem forecasts_depend_only_on_past_witness :
    (∀ r ∈ filterAsOf (0:ℤ) [ObsRow.mk (-3) (0:ℕ), ObsRow.mk 0 1],
      r.wkEndDate ≤ 0) ∧
    runOnData List.length (0:ℤ) [ObsRow.mk (-3) (0:ℕ), ObsRow.mk 0 1] =
      runOnData List.length 0 [ObsRow.mk (-3) (0:ℕ), ObsRow.mk 0 1] ∧
    runOnData List.length (0:ℤ)
        ([ObsRow.mk (-3) (0:ℕ), ObsRow.mk 0 1] ++ [ObsRow.mk 5 2]) =
      runOnData List.length 0 [ObsRow.mk (-3) (0:ℕ), ObsRow.mk 0 1] :=
  forecasts_depend_only_on_past List.length 0
    [ObsRow.mk (-3) (0:ℕ), ObsRow.mk 0 1]
    [ObsRow.mk (-3) (0:ℕ), ObsRow.mk 0 1] [ObsRow.mk 5 2] rfl
    (by intro r hr; simp at hr; rw [hr]; decide)

/-! ### Order of configuration checks relative to the data fetch
(`GBQRModel.run`, model.py 47-125; `apply_power_transform`,
transforms.py 26-31; `GBQRModelWithNYC.run`, gbqr_3src/main.py 193-314)

The claim concerns *when* a configuration error is raised relative to the
source-data fetch, so each run is embedded as the sequence of externally
visible steps it performs, in source order, stopping at the first raised
exception. -/

/-- Externally visible steps of a model run. -/
inductive RunEvent
  | fetchSourceData
  | loadCrosswalk
  | loadPopulations
  | transformData
  | buildFeatures
  | trainAndPredict
  | savePredictions
  | configError
  | runtimeError
deriving DecidableEq

/-- The power-transform names accepted by `apply_power_transform`
(transforms.py 26-31): `None` or `"4rt"`; any other name raises
`ValueError`. -/
def supportedPowerTransform (pt : Option String) : Bool :=
  match pt with
  | none => true
  | some s => s = "4rt"

/-- `valid_sources` from `GBQRModelWithNYC.run` (gbqr_3src/main.py 206). -/
def validSources : List String := ["flusurvnet", "nhsn", "ilinet", "nssp"]

/-- Event trace of `GBQRModel.run` (model.py 47-125) as a function of the
configured power transform: `load_all_data` (the source-data fetch) runs
first, then the crosswalk and population loads, and only then
`apply_scale_center_transform`, whose call to `apply_power_transform`
raises `ValueError` on an unsupported name; on a supported name the run
continues through feature construction, training and saving. -/
def gbqrRunTrace (pt : Option String) : List RunEvent :=
  [.fetchSourceData, .loadCrosswalk, .loadPopulations] ++
    (if supportedPowerTransform pt then
      [.transformData, .buildFeatures, .trainAndPredict, .savePredictions]
    else [.configError])

/-- Event trace of `GBQRModelWithNYC.run` (gbqr_3src/main.py 193-373) with
`nyc_data = None` (the constructor default, which skips the injection
block of lines 228-303), as a function of the configured sources and the
requested state/HSA location lists.  The valid-sources check (line 207)
and the duplicate-source check (line 210, `ValueError` when both `"nhsn"`
and `"nssp"` are configured) run before any fetch; `fdl.load_data` is
called only when the sources include `"nhsn"` (line 214) or, failing that,
`"nssp"` (line 220) — there is no `else` branch, so with neither source no
fetch happens at all.  After that, the empty-locations check (line 306,
`ValueError`) and the simultaneous-states-and-HSAs check (line 309,
`NotImplementedError`) run, both embedded as `.configError`; a run with
neither `"nhsn"` nor `"nssp"` that passes both checks crashes with a
`NameError` at line 312 (`df` was never assigned), embedded as
`.runtimeError`. -/
def gbqr3srcRunTrace (sources states hsas : List String) : List RunEvent :=
  if sources.all (fun s => validSources.contains s) then
    if sources.contains "nhsn" && sources.contains "nssp" then [.configError]
    else
      (if sources.contains "nhsn" || sources.contains "nssp" then
        [RunEvent.fetchSourceData]
      else []) ++
      (if states.isEmpty && hsas.isEmpty then [.configError]
       else if !states.isEmpty && !hsas.isEmpty then [.configError]
       else if sources.contains "nhsn" || sources.contains "nssp" then
         [.buildFeatures, .trainAndPredict, .savePredictions]
       else [.runtimeError])
  else [.configError]

/-- C8 counterexample: with the unsupported power-transform name `"sqrt"`,
`GBQRModel.run` performs the source-data fetch strictly before raising the
configuration error; with a valid source list and an empty requested
location set, `GBQRModelWithNYC.run` likewise fetches before raising —
the claimed "fails fast before any data fetch" is false on both paths. -/
theorem config_error_after_fetch_counterexample :
    RunEvent.configError ∈ gbqrRunTrace (some "sqrt") ∧
    (gbqrRunTrace (some "sqrt")).indexOf RunEvent.fetchSourceData <
      (gbqrRunTrace (some "sqrt")).indexOf RunEvent.configError ∧
    RunEvent.configError ∈
      gbqr3srcRunTrace ["nssp", "flusurvnet", "ilinet"] [] [] ∧
    (gbqr3srcRunTrace ["nssp", "flusurvnet", "ilinet"] [] []).indexOf
        RunEvent.fetchSourceData <
      (gbqr3srcRunTrace ["nssp", "flusurvnet", "ilinet"] [] []).indexOf
        RunEvent.configError := by
  decide

/-- C8 (amended): an unsupported power-transform name in `GBQRModel.run`,
and an empty requested location set in `GBQRModelWithNYC.run` (under valid,
non-duplicate sources), each abort the run with a configuration error and
nothing is trained or saved — but the run does not fail fast before the
data fetch: in `GBQRModel.run` the error is raised only after the fetch,
and in `GBQRModelWithNYC.run` the empty-locations error is raised after
the fetch whenever the configured sources trigger one (`"nhsn"` or
`"nssp"` present, as in every shipped configuration), while with neither
source configured no fetch happens at all and the error is the only
event. -/
theorem config_errors_abort_after_fetch (pt : Option String)
    (sources states hsas : List String)
    (hpt : supportedPowerTransform pt = false)
    (hvalid : sources.all (fun s => validSources.contains s) = true)
    (hdup : (sources.contains "nhsn" && sources.contains "nssp") = false)
    (hs : states = []) (hh : hsas = []) :
    gbqrRunTrace pt =
      [.fetchSourceData, .loadCrosswalk, .loadPopulations, .configError] ∧
    ((sources.contains "nhsn" || sources.contains "nssp") = true →
      gbqr3srcRunTrace sources states hsas =
        [.fetchSourceData, .configError]) ∧
    ((sources.contains "nhsn" || sources.contains "nssp") = false →
      gbqr3srcRunTrace sources states hsas = [.configError]) ∧
    RunEvent.savePredictions ∉ gbqrRunTrace pt ∧
    RunEvent.savePredictions ∉ gbqr3srcRunTrace sources states hsas := by
  subst hs; subst hh
  have h1 : gbqrRunTrace pt =
      [.fetchSourceData, .loadCrosswalk, .loadPopulations, .configError] := by
    rw [gbqrRunTrace, hpt]; rfl
  have h2 : (sources.contains "nhsn" || sources.contains "nssp") = true →
      gbqr3srcRunTrace sources [] [] = [.fetchSourceData, .configError] := by
    intro hb
    rw [gbqr3srcRunTrace, hvalid, hdup, hb]
    rfl
  have h3 : (sources.contains "nhsn" || sources.contains "nssp") = false →
      gbqr3srcRunTrace sources [] [] = [.configError] := by
    intro hb
    rw [gbqr3srcRunTrace, hvalid, hdup, hb]
    rfl
  refine ⟨h1, h2, h3, ?_, ?_⟩
  · rw [h1]; decide
  · cases hb : (sources.contains "nhsn" || sources.contains "nssp") with
    | true => rw [h2 hb]; decide
    | false => rw [h3 hb]; decide

/-- Witness for C8's amended theorem: power transform `"sqrt"`, sources
`["nssp"]` (which trigger a fetch), no requested locations. -/
theorem config_errors_abort_after_fetch_witness :
    gbqrRunTrace (some "sqrt") =
      [.fetchSourceData, .loadCrosswalk, .loadPopulations, .configError] ∧
    (((["nssp"] : List String).contains "nhsn"
        || (["nssp"] : List String).contains "nssp") = true →
      gbqr3srcRunTrace ["nssp"] [] [] =
        [.fetchSourceData, .configError]) ∧
    (((["nssp"] : List String).contains "nhsn"
        || (["nssp"] : List String).contains "nssp") = false →
      gbqr3srcRunTrace ["nssp"] [] [] = [.configError]) ∧
    RunEvent.savePredictions ∉ gbqrRunTrace (some "sqrt") ∧
    RunEvent.savePredictions ∉ gbqr3srcRunTrace ["nssp"] [] [] :=
  config_errors_abort_after_fetch (some "sqrt") ["nssp"] [] []
    (by decide) (by decide) (by decide) rfl rfl

end MetroCast
